import Mathlib

/-!
# Verification of the Owner/Pet microservice (SimpleMicroservice)

Shallow embedding of the FastAPI application in `src/main.py` together with
its Pydantic models in `src/models/pet.py` and `src/models/owner.py`.

Modelling choices:
* UUIDs are opaque identifiers, modelled as `Nat`.
* Timestamps (`datetime.utcnow()`) are modelled as `Nat`; the UTC clock is an
  explicit `now` argument to each handler that constructs a record.
* The in-memory stores `pets` / `owners` are Python dicts (insertion ordered);
  they are modelled as association lists `List (Nat × α)` where assignment
  `d[k] = v` replaces the first entry with key `k` in place, or appends.
* Handlers that mutate the store take the store as an argument and return the
  new store together with the response; `raise HTTPException` / an uncaught
  `TypeError` is modelled as an `ApiError` result, leaving the store as it
  was (the exception aborts the handler before any assignment).
* Pydantic request-body validation (performed by the framework before the
  handler runs) is modelled by `validatePetCreate` / `validateOwnerCreate`
  acting on raw shapes with optional fields, faithful to the `Field`
  declarations of `src/models/pet.py` and `src/models/owner.py`:
  a field declared `Field(...)` is required, fields with defaults are
  optional, and no length constraint is declared anywhere.
-/

namespace SimpleMicroservice

/-- Errors a request can end with: `httpException s d` embeds
`raise HTTPException(status_code=s, detail=d)`; `validationError` is the
framework-level Pydantic rejection of the request body; `typeError` is an
uncaught Python `TypeError` escaping the handler. -/
inductive ApiError where
  | httpException (status : Nat) (detail : String)
  | validationError (detail : String)
  | typeError (msg : String)
  deriving Repr, DecidableEq

/-- A Python dict keyed by UUID, in insertion order. -/
abbrev Store (α : Type) := List (Nat × α)

namespace Store

/-- `k in d` / `d[k]`: first entry whose key equals `k`. -/
def find {α : Type} : Store α → Nat → Option α
  | [], _ => none
  | kv :: rest, k => if kv.1 = k then some kv.2 else find rest k

/-- `d[k] = v`: replace the value in place if the key is present (Python
dicts keep the original position), otherwise append. -/
def insert {α : Type} : Store α → Nat → α → Store α
  | [], k, v => [(k, v)]
  | kv :: rest, k, v => if kv.1 = k then (k, v) :: rest else kv :: insert rest k v

/-- `list(d.values())`, in insertion order. -/
def values {α : Type} (s : Store α) : List α :=
  s.map Prod.snd

@[simp] theorem find_nil {α : Type} (k : Nat) : find ([] : Store α) k = none := rfl

@[simp] theorem find_cons {α : Type} (kv : Nat × α) (rest : Store α) (k : Nat) :
    find (kv :: rest) k = if kv.1 = k then some kv.2 else find rest k := rfl

@[simp] theorem find_insert_self {α : Type} (s : Store α) (k : Nat) (v : α) :
    find (insert s k v) k = some v := by
  induction s with
  | nil => simp [insert, find]
  | cons kv rest ih =>
      by_cases h : kv.1 = k <;> simp [insert, find, h, ih]

theorem find_insert_ne {α : Type} (s : Store α) (k k' : Nat) (v : α) (h : k ≠ k') :
    find (insert s k v) k' = find s k' := by
  induction s with
  | nil => simp [insert, find, h]
  | cons kv rest ih =>
      by_cases hk : kv.1 = k
      · simp [insert, find, hk, h]
      · by_cases hk' : kv.1 = k' <;> simp [insert, find, hk, hk', Ne.symm h, ih]

theorem values_insert_of_not_mem {α : Type} (s : Store α) (k : Nat) (v : α)
    (h : find s k = none) : values (insert s k v) = values s ++ [v] := by
  induction s with
  | nil => simp [insert, values]
  | cons kv rest ih =>
      by_cases hk : kv.1 = k
      · simp [find, hk] at h
      · simp [find, hk] at h
        have ih' := ih h
        simp only [values] at ih'
        simp [insert, values, hk, ih']

end Store

/-! ## Pet data model (`src/models/pet.py`) -/

/-- `PetBase`: id (default `uuid4()`), required `name` and `species`,
optional `age`. -/
structure PetBase where
  id : Nat
  name : String
  species : String
  age : Option Int
  deriving Repr, DecidableEq

/-- `PetCreate(PetBase)`: adds nothing to `PetBase`. -/
abbrev PetCreate := PetBase

/-- `PetRead(PetBase)`: adds server timestamps, each with default factory
`datetime.utcnow`. -/
structure PetRead extends PetBase where
  created_at : Nat
  updated_at : Nat
  deriving Repr, DecidableEq

/-- `PetUpdate`: partial update; ID is taken from the path, not the body.
A `some` value models a field explicitly present in the payload; for `age`
the present value is itself an `Option Int` since the stored `age` is
nullable (present-and-null overwrites with null, per the spec's
undefined-vs-null distinction). -/
structure PetUpdate where
  name : Option String
  species : Option String
  age : Option (Option Int)
  deriving Repr, DecidableEq

/-- The field set of `PetBase`: the keys of `PetCreate(...).model_dump()`.
Every dump of a `PetCreate` has exactly these keys, `id` included, because
`id` has a default factory and is always populated. -/
def petBaseFields : List String := ["id", "name", "species", "age"]

/-- Python's keyword-argument rule: a call `f(k=v, **d)` raises `TypeError`
("got multiple values for keyword argument") when some explicitly passed
keyword `k` is also a key of `d`. -/
def duplicateKeyword (explicit : List String) (dumpKeys : List String) : Bool :=
  explicit.any (fun k => dumpKeys.contains k)

/-! ## Pet endpoints (`src/main.py`) -/

/-- `POST /pets` (`create_pet`): conflict check on `pet.id`, then
`pets[pet.id] = PetRead(**pet.model_dump())` — the dump supplies the Base
fields and the two timestamps come from their default factories (`now`). -/
def create_pet (pets : Store PetRead) (pet : PetCreate) (now : Nat) :
    Store PetRead × Except ApiError PetRead :=
  if (Store.find pets pet.id).isSome then
    (pets, .error (.httpException 400 "Address with this ID already exists"))
  else
    let r : PetRead :=
      { id := pet.id, name := pet.name, species := pet.species, age := pet.age,
        created_at := now, updated_at := now }
    (Store.insert pets pet.id r, .ok r)

/-- `GET /pets` (`list_pets`): start from `list(pets.values())` and narrow by
each supplied filter in turn, exact equality. -/
def list_pets (pets : Store PetRead) (name : Option String)
    (species : Option String) (age : Option Int) : List PetRead :=
  let results := Store.values pets
  let results := match name with
    | some n => results.filter (fun p => p.name == n)
    | none => results
  let results := match species with
    | some s => results.filter (fun p => p.species == s)
    | none => results
  let results := match age with
    | some a => results.filter (fun p => p.age == some a)
    | none => results
  results

/-- `GET /pets/{pet_id}` (`get_pet`). -/
def get_pet (pets : Store PetRead) (pet_id : Nat) : Except ApiError PetRead :=
  match Store.find pets pet_id with
  | none => .error (.httpException 404 "Pet not found")
  | some p => .ok p

/-- `PUT /pets/{pet_id}` (`update_pet`): after the 404 check the handler
evaluates `PetRead(id=pet_id, **pet_data.model_dump())`. The dump of a
`PetCreate` contains the key `id`, so the keyword `id` is passed twice and
Python raises `TypeError` before the constructor runs; the store assignment
on the next line is never reached. The final branch records what the
construction would produce were the keyword not duplicated. -/
def update_pet (pets : Store PetRead) (pet_id : Nat) (pet_data : PetCreate)
    (now : Nat) : Store PetRead × Except ApiError PetRead :=
  if (Store.find pets pet_id).isNone then
    (pets, .error (.httpException 404 "Pet not found."))
  else if duplicateKeyword ["id"] petBaseFields then
    (pets, .error (.typeError "PetRead() got multiple values for keyword argument id"))
  else
    let r : PetRead :=
      { id := pet_id, name := pet_data.name, species := pet_data.species,
        age := pet_data.age, created_at := now, updated_at := now }
    (Store.insert pets pet_id r, .ok r)

/-- Modelled from the spec: the `PATCH /pets/{pet_id}` MergeUpdate handler is
absent from `src/main.py` (only the `PetUpdate` payload shape is declared, in
`src/models/pet.py`). Per spec §4.1: fails `NotFound` if the id is absent;
only fields explicitly present in the payload overwrite the corresponding
stored field, absent fields retain their prior value; `id` and `created_at`
are preserved; `updated_at` is refreshed. -/
def patch_pet (pets : Store PetRead) (pet_id : Nat) (upd : PetUpdate)
    (now : Nat) : Store PetRead × Except ApiError PetRead :=
  match Store.find pets pet_id with
  | none => (pets, .error (.httpException 404 "Pet not found."))
  | some old =>
      let r : PetRead :=
        { id := old.id,
          name := upd.name.getD old.name,
          species := upd.species.getD old.species,
          age := upd.age.getD old.age,
          created_at := old.created_at, updated_at := now }
      (Store.insert pets pet_id r, .ok r)

/-! ## Owner data model (`src/models/owner.py`) -/

/-- `OwnerBase`: required `first_name`, `last_name`, `email` (an `EmailStr`),
optional `phone`, and an embedded list of `PetBase` values defaulting to
the empty list. -/
structure OwnerBase where
  first_name : String
  last_name : String
  email : String
  phone : Option String
  pets : List PetBase
  deriving Repr, DecidableEq

/-- `OwnerCreate(OwnerBase)`: adds nothing to `OwnerBase`; in particular it
has no `id` field. -/
abbrev OwnerCreate := OwnerBase

/-- `OwnerRead(OwnerBase)`: adds the server-generated `id`
(default factory `uuid4`) and the two timestamps. -/
structure OwnerRead extends OwnerBase where
  id : Nat
  created_at : Nat
  updated_at : Nat
  deriving Repr, DecidableEq

/-- The field set of `OwnerBase`: the keys of `OwnerCreate(...).model_dump()`.
Unlike `petBaseFields` it contains neither `id` nor `created_at`. -/
def ownerBaseFields : List String :=
  ["first_name", "last_name", "email", "phone", "pets"]

/-! ## Owner endpoints (`src/main.py`) -/

/-- `POST /owners` (`create_owner`): no conflict check at all. The handler
builds `OwnerRead(**owner.model_dump())` — the dump has no `id`, so `id`
comes from its default factory (`genId`, the freshly generated server id) and
the timestamps from theirs — and assigns `owners[owner_read.id] = owner_read`
unconditionally. -/
def create_owner (owners : Store OwnerRead) (owner : OwnerCreate)
    (genId now : Nat) : Store OwnerRead × OwnerRead :=
  let r : OwnerRead :=
    { first_name := owner.first_name, last_name := owner.last_name,
      email := owner.email, phone := owner.phone, pets := owner.pets,
      id := genId, created_at := now, updated_at := now }
  (Store.insert owners genId r, r)

/-- `GET /owners` (`list_owners`). -/
def list_owners (owners : Store OwnerRead) (first_name : Option String)
    (last_name : Option String) (email : Option String)
    (phone : Option String) : List OwnerRead :=
  let results := Store.values owners
  let results := match first_name with
    | some v => results.filter (fun o => o.first_name == v)
    | none => results
  let results := match last_name with
    | some v => results.filter (fun o => o.last_name == v)
    | none => results
  let results := match email with
    | some v => results.filter (fun o => o.email == v)
    | none => results
  let results := match phone with
    | some v => results.filter (fun o => o.phone == some v)
    | none => results
  results

/-- `GET /owners/{owner_id}` (`get_owner`). -/
def get_owner (owners : Store OwnerRead) (owner_id : Nat) :
    Except ApiError OwnerRead :=
  match Store.find owners owner_id with
  | none => .error (.httpException 404 "Owner not found")
  | some o => .ok o

/-- `PUT /owners/{owner_id}` (`update_owner`): after the 404 check the handler
builds `OwnerRead(id=owner_id, created_at=owners[owner_id].created_at,
**owner_data.model_dump())`. The dump of an `OwnerCreate` contains neither
`id` nor `created_at`, so no keyword is duplicated: the prior record's
`created_at` is carried forward explicitly, every Base field comes from the
payload, and `updated_at` comes from its default factory. -/
def update_owner (owners : Store OwnerRead) (owner_id : Nat)
    (owner_data : OwnerCreate) (now : Nat) :
    Store OwnerRead × Except ApiError OwnerRead :=
  match Store.find owners owner_id with
  | none => (owners, .error (.httpException 404 "Owner not found."))
  | some old =>
      if duplicateKeyword ["id", "created_at"] ownerBaseFields then
        (owners, .error (.typeError "OwnerRead() got multiple values for a keyword argument"))
      else
        let r : OwnerRead :=
          { first_name := owner_data.first_name,
            last_name := owner_data.last_name,
            email := owner_data.email, phone := owner_data.phone,
            pets := owner_data.pets,
            id := owner_id, created_at := old.created_at, updated_at := now }
        (Store.insert owners owner_id r, .ok r)

/-! ## Request-body validation (`src/models/*.py` field declarations)

The framework deserializes and validates the request body against the
payload model before the handler runs; a failure is reported as a
validation error and the handler — and hence any store mutation — is never
reached. The raw shapes below have every field optional; validation
enforces exactly what the `Field` declarations in `src/models` require:
`name`/`species` (Pet) and `first_name`/`last_name`/`email` (Owner) are
required (`Field(...)`), the rest have defaults. No `Field` declaration
carries a length constraint, so the empty string is accepted wherever a
string is. -/

/-- A raw `POST /pets` / `PUT /pets/{id}` body before validation. -/
structure RawPet where
  id : Option Nat
  name : Option String
  species : Option String
  age : Option Int
  deriving Repr, DecidableEq

/-- A raw `POST /owners` / `PUT /owners/{id}` body before validation. -/
structure RawOwner where
  first_name : Option String
  last_name : Option String
  email : Option String
  phone : Option String
  pets : Option (List PetBase)
  deriving Repr, DecidableEq

/-- Modelled from the spec: email-format validation. The source declares
`email: EmailStr` (`src/models/owner.py`), but the validator itself lives in
the Pydantic email library, outside this repository. Modelled on the spec's
"must be syntactically valid email address": one `@` separating a nonempty
local part from a nonempty domain that contains a dot, with no spaces. -/
def isValidEmail (s : String) : Bool :=
  let cs := s.toList
  let loc := cs.takeWhile (fun c => c != '@')
  match cs.dropWhile (fun c => c != '@') with
  | '@' :: dom =>
      !loc.isEmpty && !dom.isEmpty && dom.contains '.' &&
      !(dom.contains '@') && dom.head? != some '.' && dom.getLast? != some '.' &&
      !(cs.contains ' ')
  | _ => false

/-- Pydantic validation of a `PetCreate` body: `name` and `species` are
required; `id` defaults to a fresh server-generated value (`genId`); `age`
defaults to null. No other constraint is declared. -/
def validatePetCreate (raw : RawPet) (genId : Nat) :
    Except ApiError PetCreate :=
  match raw.name, raw.species with
  | some n, some s =>
      .ok { id := raw.id.getD genId, name := n, species := s, age := raw.age }
  | _, _ => .error (.validationError "Field required")

/-- Pydantic validation of an `OwnerCreate` body: `first_name`, `last_name`
and `email` are required, `email` must be a valid email address; `phone`
defaults to null and `pets` to the empty list. -/
def validateOwnerCreate (raw : RawOwner) : Except ApiError OwnerCreate :=
  match raw.first_name, raw.last_name, raw.email with
  | some fn, some ln, some em =>
      if isValidEmail em then
        .ok { first_name := fn, last_name := ln, email := em,
              phone := raw.phone, pets := raw.pets.getD [] }
      else .error (.validationError "value is not a valid email address")
  | _, _, _ => .error (.validationError "Field required")

/-! ## Full request pipelines: framework validation, then handler. -/

/-- `POST /pets` end to end: validate the body, then run `create_pet`. -/
def post_pet (pets : Store PetRead) (raw : RawPet) (genId now : Nat) :
    Store PetRead × Except ApiError PetRead :=
  match validatePetCreate raw genId with
  | .error e => (pets, .error e)
  | .ok pc => create_pet pets pc now

/-- `PUT /pets/{pet_id}` end to end: validate the body, then `update_pet`. -/
def put_pet (pets : Store PetRead) (pet_id : Nat) (raw : RawPet)
    (genId now : Nat) : Store PetRead × Except ApiError PetRead :=
  match validatePetCreate raw genId with
  | .error e => (pets, .error e)
  | .ok pc => update_pet pets pet_id pc now

/-- `POST /owners` end to end: validate the body, then `create_owner`. -/
def post_owner (owners : Store OwnerRead) (raw : RawOwner) (genId now : Nat) :
    Store OwnerRead × Except ApiError OwnerRead :=
  match validateOwnerCreate raw with
  | .error e => (owners, .error e)
  | .ok oc =>
      let res := create_owner owners oc genId now
      (res.1, .ok res.2)

/-- `PUT /owners/{owner_id}` end to end: validate, then `update_owner`. -/
def put_owner (owners : Store OwnerRead) (owner_id : Nat) (raw : RawOwner)
    (now : Nat) : Store OwnerRead × Except ApiError OwnerRead :=
  match validateOwnerCreate raw with
  | .error e => (owners, .error e)
  | .ok oc => update_owner owners owner_id oc now

/-! ## Concrete sample data for witnesses -/

/-- A stored pet, as §8.3 of the spec: Fido the 3-year-old dog. -/
def fido : PetRead :=
  { id := 1, name := "Fido", species := "Dog", age := some 3,
    created_at := 10, updated_at := 10 }

/-- A second stored pet with no recorded age. -/
def rex : PetRead :=
  { id := 2, name := "Rex", species := "Dog", age := none,
    created_at := 20, updated_at := 20 }

/-- A stored cat whose age coincides with Fido's. -/
def whiskers : PetRead :=
  { id := 3, name := "Whiskers", species := "Cat", age := some 3,
    created_at := 30, updated_at := 30 }

/-- A pet store holding the three sample pets. -/
def petsDemo : Store PetRead := [(1, fido), (2, rex), (3, whiskers)]

/-- A stored owner. -/
def jane : OwnerRead :=
  { first_name := "Jane", last_name := "Smith",
    email := "jane.smith@example.com", phone := none, pets := [],
    id := 1, created_at := 5, updated_at := 5 }

/-- An owner store holding the sample owner under id 1. -/
def ownersDemo : Store OwnerRead := [(1, jane)]

/-! ## The claims -/

/-- C1: for every pet id present in the store, MergeUpdate (PATCH) with a
`PetUpdate` payload overwrites exactly the fields explicitly present in the
payload, leaves absent fields at their prior stored value and preserves the
record's `id` and `created_at`; if the id is absent it fails NotFound. -/
theorem pet_merge_update_spec (pets : Store PetRead) (pid : Nat)
    (upd : PetUpdate) (now : Nat) :
    (∀ old, Store.find pets pid = some old →
      ∃ r, patch_pet pets pid upd now = (Store.insert pets pid r, .ok r) ∧
        r.name = upd.name.getD old.name ∧
        r.species = upd.species.getD old.species ∧
        r.age = upd.age.getD old.age ∧
        r.id = old.id ∧ r.created_at = old.created_at) ∧
    (Store.find pets pid = none →
      patch_pet pets pid upd now =
        (pets, .error (.httpException 404 "Pet not found."))) := by
  constructor
  · intro old h
    refine ⟨{ id := old.id, name := upd.name.getD old.name,
              species := upd.species.getD old.species,
              age := upd.age.getD old.age,
              created_at := old.created_at, updated_at := now },
            ?_, rfl, rfl, rfl, rfl, rfl⟩
    simp [patch_pet, h]
  · intro h
    simp [patch_pet, h]

/-- Witness for C1: merging `{age: 4}` into stored Fido keeps name and
species, updates the age, and preserves id and creation time. -/
theorem pet_merge_update_spec_witness :
    ∃ r, patch_pet petsDemo 1 { name := none, species := none, age := some (some 4) } 99 =
        (Store.insert petsDemo 1 r, .ok r) ∧
      r.name = Option.getD none fido.name ∧
      r.species = Option.getD none fido.species ∧
      r.age = Option.getD (some (some 4)) fido.age ∧
      r.id = fido.id ∧ r.created_at = fido.created_at :=
  (pet_merge_update_spec petsDemo 1
    { name := none, species := none, age := some (some 4) } 99).1 fido rfl

/-- C2 (code evaluated at the failing input): PUT /pets on an existing id
with a well-formed `PetCreate` body does not replace the record; the handler
aborts with a `TypeError` (duplicate `id` keyword) and the store is
unchanged. -/
theorem pet_replace_full_type_error_at_input :
    update_pet petsDemo 1 { id := 7, name := "Buddy", species := "Dog", age := some 4 } 99 =
      (petsDemo,
       .error (.typeError "PetRead() got multiple values for keyword argument id")) := by
  rfl

/-- C3: for every pet id present in the store and every `PetCreate` payload,
`update_pet` raises an internal `TypeError` — the constructor receives the
`id` keyword twice, once explicitly and once inside the dumped payload — so
it never stores an updated record and leaves the store unchanged. -/
theorem pet_replace_full_always_type_error (pets : Store PetRead) (pid : Nat)
    (pd : PetCreate) (now : Nat) (h : (Store.find pets pid).isSome) :
    update_pet pets pid pd now =
      (pets,
       .error (.typeError "PetRead() got multiple values for keyword argument id")) := by
  have h' : (Store.find pets pid).isNone = false := by
    cases hf : Store.find pets pid <;> simp_all
  have hdup : duplicateKeyword ["id"] petBaseFields = true := by decide
  simp [update_pet, h', hdup]

/-- Witness for C3 at a concrete store and payload. -/
theorem pet_replace_full_always_type_error_witness :
    update_pet petsDemo 2 { id := 8, name := "Milo", species := "Cat", age := none } 70 =
      (petsDemo,
       .error (.typeError "PetRead() got multiple values for keyword argument id")) :=
  pet_replace_full_always_type_error petsDemo 2
    { id := 8, name := "Milo", species := "Cat", age := none } 70 rfl

/-- C4: Owner ReplaceFull (PUT) on an existing id preserves the stored
record's `created_at` and replaces every Base field wholesale (first_name,
last_name, email, phone, and the full pets list) from the payload; an
absent id fails NotFound. -/
theorem owner_replace_full_spec (owners : Store OwnerRead) (oid : Nat)
    (od : OwnerCreate) (now : Nat) :
    (∀ old, Store.find owners oid = some old →
      ∃ r, update_owner owners oid od now = (Store.insert owners oid r, .ok r) ∧
        r.created_at = old.created_at ∧
        r.first_name = od.first_name ∧ r.last_name = od.last_name ∧
        r.email = od.email ∧ r.phone = od.phone ∧ r.pets = od.pets ∧
        r.id = oid) ∧
    (Store.find owners oid = none →
      update_owner owners oid od now =
        (owners, .error (.httpException 404 "Owner not found."))) := by
  have hdup : duplicateKeyword ["id", "created_at"] ownerBaseFields = false := by
    decide
  constructor
  · intro old h
    refine ⟨{ first_name := od.first_name, last_name := od.last_name,
              email := od.email, phone := od.phone, pets := od.pets,
              id := oid, created_at := old.created_at, updated_at := now },
            ?_, rfl, rfl, rfl, rfl, rfl, rfl, rfl⟩
    simp [update_owner, h, hdup]
  · intro h
    simp [update_owner, h]

/-- Witness for C4: replacing stored Jane with a John payload keeps her
`created_at` and swaps in every payload field, the pets list included. -/
theorem owner_replace_full_spec_witness :
    ∃ r, update_owner ownersDemo 1
        { first_name := "John", last_name := "Doe",
          email := "john.doe@example.com", phone := some "+1-555-123-4567",
          pets := [{ id := 4, name := "Snowball", species := "Rabbit", age := some 1 }] } 60 =
        (Store.insert ownersDemo 1 r, .ok r) ∧
      r.created_at = jane.created_at ∧
      r.first_name = "John" ∧ r.last_name = "Doe" ∧
      r.email = "john.doe@example.com" ∧ r.phone = some "+1-555-123-4567" ∧
      r.pets = [{ id := 4, name := "Snowball", species := "Rabbit", age := some 1 }] ∧
      r.id = 1 :=
  (owner_replace_full_spec ownersDemo 1
    { first_name := "John", last_name := "Doe",
      email := "john.doe@example.com", phone := some "+1-555-123-4567",
      pets := [{ id := 4, name := "Snowball", species := "Rabbit", age := some 1 }] } 60).1
    jane rfl

/-- C5: Pet Create with an id already in the store fails with Conflict
(HTTP 400) leaving the store exactly as it was; with a fresh id it stamps
`created_at` and `updated_at`, stores the record under that id and returns
the Read representation of the payload. -/
theorem pet_create_spec (pets : Store PetRead) (pet : PetCreate) (now : Nat) :
    ((Store.find pets pet.id).isSome →
      create_pet pets pet now =
        (pets, .error (.httpException 400 "Address with this ID already exists"))) ∧
    (Store.find pets pet.id = none →
      ∃ r, create_pet pets pet now = (Store.insert pets pet.id r, .ok r) ∧
        r.toPetBase = pet ∧ r.created_at = now ∧ r.updated_at = now ∧
        Store.find (create_pet pets pet now).1 pet.id = some r) := by
  constructor
  · intro h
    simp [create_pet, h]
  · intro h
    refine ⟨{ id := pet.id, name := pet.name, species := pet.species,
              age := pet.age, created_at := now, updated_at := now },
            ?_, rfl, rfl, rfl, ?_⟩
    · simp [create_pet, h]
    · simp [create_pet, h]

/-- Witness for C5: creating over the occupied id 1 is rejected with the
store intact, and creating under the fresh id 9 stores and returns the
stamped record. -/
theorem pet_create_spec_witness :
    (create_pet petsDemo { id := 1, name := "Dup", species := "Dog", age := none } 50 =
      (petsDemo, .error (.httpException 400 "Address with this ID already exists"))) ∧
    (∃ r, create_pet petsDemo { id := 9, name := "Neo", species := "Cat", age := some 1 } 50 =
        (Store.insert petsDemo 9 r, .ok r) ∧
      r.toPetBase = { id := 9, name := "Neo", species := "Cat", age := some 1 } ∧
      r.created_at = 50 ∧ r.updated_at = 50 ∧
      Store.find (create_pet petsDemo { id := 9, name := "Neo", species := "Cat", age := some 1 } 50).1 9 =
        some r) :=
  ⟨(pet_create_spec petsDemo { id := 1, name := "Dup", species := "Dog", age := none } 50).1
      (by rfl),
   (pet_create_spec petsDemo { id := 9, name := "Neo", species := "Cat", age := some 1 } 50).2
      (by rfl)⟩

/-- C6: Pet List returns exactly the stored records matching every supplied
filter by exact equality (AND-conjunction); with no filters it returns all
records. Being a total function into a list, it never errors: a filter
combination with no matches yields the empty list. -/
theorem pet_list_filter_spec (pets : Store PetRead) (name species : Option String)
    (age : Option Int) :
    (∀ p, p ∈ list_pets pets name species age ↔
      p ∈ Store.values pets ∧
      (∀ n, name = some n → p.name = n) ∧
      (∀ s, species = some s → p.species = s) ∧
      (∀ a, age = some a → p.age = some a)) ∧
    list_pets pets none none none = Store.values pets := by
  constructor
  · intro p
    cases name <;> cases species <;> cases age <;>
      simp [list_pets, List.mem_filter] <;> tauto
  · rfl

/-- Witness for C6: with filters species = Cat and age = 3, Whiskers is
among the results of the demo store. -/
theorem pet_list_filter_spec_witness :
    whiskers ∈ list_pets petsDemo none (some "Cat") (some 3) :=
  ((pet_list_filter_spec petsDemo none (some "Cat") (some 3)).1 whiskers).mpr
    ⟨(by simp [petsDemo, Store.values]),
     (by intro n h; cases h),
     (by intro s h; cases h; rfl),
     (by intro a h; cases h; rfl)⟩

/-- Helper for C7: a body whose email fails format validation is rejected by
the schema layer whatever the other fields hold. -/
theorem validateOwnerCreate_invalid_email (raw : RawOwner) (e : String)
    (he : raw.email = some e) (hv : isValidEmail e = false) :
    ∃ d, validateOwnerCreate raw = .error (.validationError d) := by
  unfold validateOwnerCreate
  rw [he]
  cases raw.first_name <;> cases raw.last_name <;> simp [hv]

/-- C7: Owner Create with a syntactically invalid email fails with a
ValidationError before the store is touched, so the store — and hence any
subsequent List result — is exactly what it was. -/
theorem owner_create_invalid_email_spec (owners : Store OwnerRead)
    (raw : RawOwner) (genId now : Nat) (e : String)
    (he : raw.email = some e) (hv : isValidEmail e = false) :
    (post_owner owners raw genId now).1 = owners ∧
    (∃ d, (post_owner owners raw genId now).2 = .error (.validationError d)) ∧
    (∀ fn ln em ph, list_owners (post_owner owners raw genId now).1 fn ln em ph =
      list_owners owners fn ln em ph) := by
  obtain ⟨d, hd⟩ := validateOwnerCreate_invalid_email raw e he hv
  refine ⟨?_, ⟨d, ?_⟩, ?_⟩ <;> simp [post_owner, hd]

/-- Witness for C7: creating an owner with email "not-an-email" leaves the
demo store untouched and reports a validation error. -/
theorem owner_create_invalid_email_spec_witness :
    (post_owner ownersDemo
        { first_name := some "Bad", last_name := some "Actor",
          email := some "not-an-email", phone := none, pets := none } 7 80).1 = ownersDemo ∧
    (∃ d, (post_owner ownersDemo
        { first_name := some "Bad", last_name := some "Actor",
          email := some "not-an-email", phone := none, pets := none } 7 80).2 =
      .error (.validationError d)) ∧
    (∀ fn ln em ph, list_owners (post_owner ownersDemo
        { first_name := some "Bad", last_name := some "Actor",
          email := some "not-an-email", phone := none, pets := none } 7 80).1 fn ln em ph =
      list_owners ownersDemo fn ln em ph) :=
  owner_create_invalid_email_spec ownersDemo
    { first_name := some "Bad", last_name := some "Actor",
      email := some "not-an-email", phone := none, pets := none } 7 80
    "not-an-email" rfl (by decide)

/-- C8 counterexample: a Pet Create body whose `name` is the empty string is
NOT rejected — no `Field` declaration in `src/models` carries a length
constraint — so the request succeeds and mutates the store, contrary to the
claimed ValidationError. -/
theorem pet_create_empty_name_counterexample :
    (post_pet [] { id := some 5, name := some "", species := some "Dog", age := none } 9 40).2 =
      .ok { id := 5, name := "", species := "Dog", age := none,
            created_at := 40, updated_at := 40 } ∧
    (post_pet [] { id := some 5, name := some "", species := some "Dog", age := none } 9 40).1 ≠
      ([] : Store PetRead) := by
  constructor
  · rfl
  · decide

/-- Helper for C8: a Pet body missing `name` or `species` fails schema
validation. -/
theorem validatePetCreate_missing (raw : RawPet) (genId : Nat)
    (h : raw.name = none ∨ raw.species = none) :
    validatePetCreate raw genId = .error (.validationError "Field required") := by
  unfold validatePetCreate
  rcases h with h | h
  · rw [h]
  · rw [h]; cases raw.name <;> rfl

/-- Helper for C8: an Owner body missing `first_name` or `last_name` fails
schema validation. -/
theorem validateOwnerCreate_missing (raw : RawOwner)
    (h : raw.first_name = none ∨ raw.last_name = none) :
    validateOwnerCreate raw = .error (.validationError "Field required") := by
  unfold validateOwnerCreate
  rcases h with h | h
  · rw [h]
  · rw [h]; cases raw.first_name <;> cases raw.email <;> rfl

/-- C8 amended: the required fields must be present — a Pet Create or
ReplaceFull body missing `name` or `species`, and an Owner Create or
ReplaceFull body missing `first_name` or `last_name`, fails with a
ValidationError before any store mutation — but an empty string is an
accepted value for these fields (no non-emptiness constraint is declared). -/
theorem required_fields_present_spec (pets : Store PetRead)
    (owners : Store OwnerRead) (rawP : RawPet) (rawO : RawOwner)
    (pid oid genId now : Nat) :
    (rawP.name = none ∨ rawP.species = none →
      post_pet pets rawP genId now =
        (pets, .error (.validationError "Field required")) ∧
      put_pet pets pid rawP genId now =
        (pets, .error (.validationError "Field required"))) ∧
    (rawO.first_name = none ∨ rawO.last_name = none →
      post_owner owners rawO genId now =
        (owners, .error (.validationError "Field required")) ∧
      put_owner owners oid rawO now =
        (owners, .error (.validationError "Field required"))) := by
  constructor
  · intro h
    have hv := validatePetCreate_missing rawP genId h
    constructor <;> simp [post_pet, put_pet, hv]
  · intro h
    have hv := validateOwnerCreate_missing rawO h
    constructor <;> simp [post_owner, put_owner, hv]

/-- Witness for amended C8 at concrete bodies: a nameless pet body and a
last-name-less owner body are rejected on both the POST and PUT paths with
the stores intact. -/
theorem required_fields_present_spec_witness :
    (post_pet petsDemo { id := none, name := none, species := some "Dog", age := none } 9 40 =
       (petsDemo, .error (.validationError "Field required")) ∧
     put_pet petsDemo 1 { id := none, name := none, species := some "Dog", age := none } 9 40 =
       (petsDemo, .error (.validationError "Field required"))) ∧
    (post_owner ownersDemo
       { first_name := some "John", last_name := none,
         email := some "john.doe@example.com", phone := none, pets := none } 9 40 =
       (ownersDemo, .error (.validationError "Field required")) ∧
     put_owner ownersDemo 1
       { first_name := some "John", last_name := none,
         email := some "john.doe@example.com", phone := none, pets := none } 40 =
       (ownersDemo, .error (.validationError "Field required"))) :=
  ⟨(required_fields_present_spec petsDemo ownersDemo
      { id := none, name := none, species := some "Dog", age := none }
      { first_name := some "John", last_name := none,
        email := some "john.doe@example.com", phone := none, pets := none }
      1 1 9 40).1 (Or.inl rfl),
   (required_fields_present_spec petsDemo ownersDemo
      { id := none, name := none, species := some "Dog", age := none }
      { first_name := some "John", last_name := none,
        email := some "john.doe@example.com", phone := none, pets := none }
      1 1 9 40).2 (Or.inr rfl)⟩

/-- C9: Create followed by Get at the resulting record's id returns a record
whose Base fields equal the payload's — for a Pet (id, name, species, age)
when the payload id is fresh, and for an Owner (first_name, last_name,
email, phone, pets) unconditionally. -/
theorem create_then_get_round_trip :
    (∀ (pets : Store PetRead) (pet : PetCreate) (now : Nat),
      Store.find pets pet.id = none →
      ∃ r, create_pet pets pet now = (Store.insert pets pet.id r, .ok r) ∧
        get_pet (create_pet pets pet now).1 pet.id = .ok r ∧
        r.id = pet.id ∧ r.name = pet.name ∧ r.species = pet.species ∧
        r.age = pet.age) ∧
    (∀ (owners : Store OwnerRead) (ow : OwnerCreate) (genId now : Nat),
      get_owner (create_owner owners ow genId now).1 genId =
        .ok (create_owner owners ow genId now).2 ∧
      (create_owner owners ow genId now).2.first_name = ow.first_name ∧
      (create_owner owners ow genId now).2.last_name = ow.last_name ∧
      (create_owner owners ow genId now).2.email = ow.email ∧
      (create_owner owners ow genId now).2.phone = ow.phone ∧
      (create_owner owners ow genId now).2.pets = ow.pets) := by
  constructor
  · intro pets pet now h
    refine ⟨{ id := pet.id, name := pet.name, species := pet.species,
              age := pet.age, created_at := now, updated_at := now },
            ?_, ?_, rfl, rfl, rfl, rfl⟩
    · simp [create_pet, h]
    · simp [create_pet, get_pet, h]
  · intro owners ow genId now
    refine ⟨?_, rfl, rfl, rfl, rfl, rfl⟩
    simp [create_owner, get_owner]

/-- Witness for C9: creating Neo under the fresh id 9 and reading it back
returns exactly the payload's Base fields. -/
theorem create_then_get_round_trip_witness :
    ∃ r, create_pet petsDemo { id := 9, name := "Luna", species := "Cat", age := none } 50 =
        (Store.insert petsDemo 9 r, .ok r) ∧
      get_pet (create_pet petsDemo { id := 9, name := "Luna", species := "Cat", age := none } 50).1 9 =
        .ok r ∧
      r.id = 9 ∧ r.name = "Luna" ∧ r.species = "Cat" ∧ r.age = none :=
  create_then_get_round_trip.1 petsDemo
    { id := 9, name := "Luna", species := "Cat", age := none } 50 rfl

/-- C10: Owner Create never fails with Conflict — for every valid body it
unconditionally writes the record under the freshly generated server id and
returns it; in particular `Store.find` at that id afterwards yields the new
record, so a pre-existing owner under the same id is silently
overwritten (there is no duplicate-id check, unlike Pet Create). -/
theorem owner_create_never_conflict (owners : Store OwnerRead)
    (raw : RawOwner) (genId now : Nat) (oc : OwnerCreate)
    (h : validateOwnerCreate raw = .ok oc) :
    ∃ r, post_owner owners raw genId now = (Store.insert owners genId r, .ok r) ∧
      r.id = genId ∧ r.first_name = oc.first_name ∧ r.last_name = oc.last_name ∧
      r.email = oc.email ∧ r.phone = oc.phone ∧ r.pets = oc.pets ∧
      r.created_at = now ∧ r.updated_at = now ∧
      Store.find (post_owner owners raw genId now).1 genId = some r := by
  refine ⟨{ first_name := oc.first_name, last_name := oc.last_name,
            email := oc.email, phone := oc.phone, pets := oc.pets,
            id := genId, created_at := now, updated_at := now },
          ?_, rfl, rfl, rfl, rfl, rfl, rfl, rfl, rfl, ?_⟩ <;>
    simp [post_owner, create_owner, h]

/-- Witness for C10: the generated id 1 is already occupied by Jane in the
demo store, yet creation succeeds and the lookup at id 1 afterwards returns
the new record — Jane was silently overwritten. -/
theorem owner_create_never_conflict_witness :
    ∃ r, post_owner ownersDemo
        { first_name := some "John", last_name := some "Doe",
          email := some "john.doe@example.com", phone := none, pets := none } 1 60 =
        (Store.insert ownersDemo 1 r, .ok r) ∧
      r.id = 1 ∧ r.first_name = "John" ∧ r.last_name = "Doe" ∧
      r.email = "john.doe@example.com" ∧ r.phone = none ∧ r.pets = ([] : List PetBase) ∧
      r.created_at = 60 ∧ r.updated_at = 60 ∧
      Store.find (post_owner ownersDemo
        { first_name := some "John", last_name := some "Doe",
          email := some "john.doe@example.com", phone := none, pets := none } 1 60).1 1 =
        some r :=
  owner_create_never_conflict ownersDemo
    { first_name := some "John", last_name := some "Doe",
      email := some "john.doe@example.com", phone := none, pets := none } 1 60
    { first_name := "John", last_name := "Doe",
      email := "john.doe@example.com", phone := none, pets := [] }
    (by rfl)

end SimpleMicroservice
